import Mathlib

/-!
Shallow embedding of the SoulConnect matching core
(`backend/matching/algorithm.py`, `backend/matching/models.py`,
`backend/matching/views.py`, `backend/chat/models.py`,
`backend/profiles/views.py`) together with theorems checking the
natural-language specification against it.

Conventions: Python `date` values become `PyDate`; Django model rows become
Lean structures; the database collections become lists carried in an explicit
`MatchingState`; Python floats in the scorer become `ℚ` (every value the
scorer produces is an exact multiple of 1/2, so binary floating point and
exact rational arithmetic agree on this code); `timezone.now()` becomes an
explicit `now : Nat` parameter.
-/

/-- Python `datetime.date` with integer components. -/
structure PyDate where
  year : Int
  month : Int
  day : Int
deriving DecidableEq, Repr

/-- `PartnerPreference` rows (`backend/profiles/models.py`), restricted to the
fields the matching algorithm reads.  JSON list fields become `List String`
(Python treats the empty list as falsy); nullable integer fields become
`Option Int`. -/
structure PartnerPreference where
  age_from : Int
  age_to : Int
  height_from : Option Int
  height_to : Option Int
  marital_status : List String
  religion : List String
  caste : List String
  caste_no_bar : Bool
  education : List String
  country : List String
  state : List String
  city : List String
  diet : List String
deriving DecidableEq, Repr

/-- `Profile` rows (`backend/profiles/models.py`), restricted to the fields
the matching algorithm reads. -/
structure Profile where
  date_of_birth : PyDate
  height_cm : Int
  marital_status : String
  religion : String
  caste : String
  education : String
  country : String
  state : String
  city : String
  diet : String
deriving DecidableEq, Repr

/-- Python truthiness of an optional integer: `None` and `0` are falsy
(`if not preferences.height_from`). -/
def optIntFalsy : Option Int → Bool
  | none => true
  | some v => v == 0

/-- Python `str.lower()`.  Mapped over the character list (Lean's
`String.map` is not kernel-reducible); `Char.toLower` agrees with Python on
the ASCII data this code compares. -/
def lower (s : String) : String :=
  ⟨s.data.map Char.toLower⟩

/-- `MatchingAlgorithm.WEIGHTS`: the weight table, as the dict literal in
`algorithm.py` (note the `income` entry, which `calculate_compatibility`
never scores). -/
def WEIGHTS : List (String × Int) :=
  [("age", 15), ("height", 10), ("religion", 20), ("caste", 10),
   ("education", 10), ("income", 10), ("location", 10), ("diet", 5),
   ("marital_status", 10)]

/-- `self.WEIGHTS[key]` lookup. -/
def weightOf (key : String) : Int :=
  ((WEIGHTS.lookup key).getD 0)

/-- `MatchingAlgorithm.calculate_age`: Python computes
`today.year - dob.year - ((today.month, today.day) < (dob.month, dob.day))`,
with the tuple comparison lexicographic and the boolean coerced to 0/1. -/
def calculate_age (today dob : PyDate) : Int :=
  today.year - dob.year -
    (if today.month < dob.month ∨ (today.month = dob.month ∧ today.day < dob.day)
     then 1 else 0)

/-- `MatchingAlgorithm._check_age`. -/
def check_age (preferences : PartnerPreference) (target : Profile)
    (today : PyDate) : Int :=
  let target_age := calculate_age today target.date_of_birth
  if preferences.age_from ≤ target_age ∧ target_age ≤ preferences.age_to then
    100
  else
    let diff :=
      if target_age < preferences.age_from then preferences.age_from - target_age
      else target_age - preferences.age_to
    if diff ≤ 2 then 70
    else if diff ≤ 5 then 40
    else 0

/-- `MatchingAlgorithm._check_height`. -/
def check_height (preferences : PartnerPreference) (target : Profile) : Int :=
  if optIntFalsy preferences.height_from || optIntFalsy preferences.height_to then
    100
  else
    let hf := preferences.height_from.getD 0
    let ht := preferences.height_to.getD 0
    if hf ≤ target.height_cm ∧ target.height_cm ≤ ht then 100
    else
      let diff :=
        if target.height_cm < hf then hf - target.height_cm
        else target.height_cm - ht
      if diff ≤ 5 then 70
      else if diff ≤ 10 then 40
      else 0

/-- `MatchingAlgorithm._check_religion`. -/
def check_religion (preferences : PartnerPreference) (target : Profile) : Int :=
  if preferences.religion = [] then 100
  else if target.religion ∈ preferences.religion then 100
  else 0

/-- `MatchingAlgorithm._check_caste`. -/
def check_caste (preferences : PartnerPreference) (target : Profile) : Int :=
  if preferences.caste_no_bar then 100
  else if preferences.caste = [] then 100
  else if lower target.caste ∈ preferences.caste.map lower then 100
  else 50

/-- `MatchingAlgorithm._check_education`. -/
def check_education (preferences : PartnerPreference) (target : Profile) : Int :=
  if preferences.education = [] then 100
  else if target.education ∈ preferences.education then 100
  else 30

/-- `MatchingAlgorithm._check_location`: additive composite of city, state and
country sub-checks. -/
def check_location (preferences : PartnerPreference) (target : Profile) : Int :=
  let cityScore : Int :=
    if preferences.city ≠ [] ∧ lower target.city ∈ preferences.city.map lower
    then 50
    else if preferences.city = [] then 25 else 0
  let stateScore : Int :=
    if preferences.state ≠ [] ∧ lower target.state ∈ preferences.state.map lower
    then 30
    else if preferences.state = [] then 15 else 0
  let countryScore : Int :=
    if preferences.country ≠ [] then
      (if lower target.country ∈ preferences.country.map lower then 20 else 0)
    else 10
  cityScore + stateScore + countryScore

/-- `MatchingAlgorithm._check_diet`. -/
def check_diet (preferences : PartnerPreference) (target : Profile) : Int :=
  if preferences.diet = [] then 100
  else if target.diet ∈ preferences.diet then 100
  else 30

/-- `MatchingAlgorithm._check_marital_status`. -/
def check_marital_status (preferences : PartnerPreference) (target : Profile) : Int :=
  if preferences.marital_status = [] then 100
  else if target.marital_status ∈ preferences.marital_status then 100
  else 0

/-- Python `round(x, 1)`.  Mathlib `round` is round-half-up while Python uses
round-half-even, but every total the scorer produces is an exact multiple of
1/2, so `x * 10` is an integer and the two conventions agree on all reachable
inputs. -/
def round1 (q : ℚ) : ℚ :=
  ((round (q * 10) : Int) : ℚ) / 10

/-- Result dict of `calculate_compatibility`. -/
structure CompatibilityResult where
  total_score : ℚ
  breakdown : List (String × Int)
  is_match : Bool
deriving DecidableEq, Repr

/-- `MatchingAlgorithm.calculate_compatibility`.  The `try/except
PartnerPreference.DoesNotExist` of the source becomes a `match` on
`Option PartnerPreference`: `none` is the absent-preferences branch. -/
def calculate_compatibility (preferences : Option PartnerPreference)
    (target : Profile) (today : PyDate) : CompatibilityResult :=
  match preferences with
  | none =>
      { total_score := 50, breakdown := [], is_match := false }
  | some prefs =>
      let age_score := check_age prefs target today
      let height_score := check_height prefs target
      let religion_score := check_religion prefs target
      let caste_score := check_caste prefs target
      let education_score := check_education prefs target
      let location_score := check_location prefs target
      let diet_score := check_diet prefs target
      let marital_score := check_marital_status prefs target
      let score : ℚ :=
        (age_score : ℚ) * (weightOf "age" : Int) / 100
        + (height_score : ℚ) * (weightOf "height" : Int) / 100
        + (religion_score : ℚ) * (weightOf "religion" : Int) / 100
        + (caste_score : ℚ) * (weightOf "caste" : Int) / 100
        + (education_score : ℚ) * (weightOf "education" : Int) / 100
        + (location_score : ℚ) * (weightOf "location" : Int) / 100
        + (diet_score : ℚ) * (weightOf "diet" : Int) / 100
        + (marital_score : ℚ) * (weightOf "marital_status" : Int) / 100
      let breakdown :=
        [("age", age_score), ("height", height_score),
         ("religion", religion_score), ("caste", caste_score),
         ("education", education_score), ("location", location_score),
         ("diet", diet_score), ("marital_status", marital_score)]
      let total_weight : ℚ := ((WEIGHTS.map (fun kv => kv.2)).sum : Int)
      let normalized_score := score / total_weight * 100
      { total_score := round1 normalized_score,
        breakdown := breakdown,
        is_match := decide (60 ≤ normalized_score) }
theorem calculate_compatibility_some (prefs : PartnerPreference) (t : Profile)
    (d : PyDate) :
    calculate_compatibility (some prefs) t d =
      { total_score := round1
          (((check_age prefs t d : ℚ) * 15 / 100
            + (check_height prefs t : ℚ) * 10 / 100
            + (check_religion prefs t : ℚ) * 20 / 100
            + (check_caste prefs t : ℚ) * 10 / 100
            + (check_education prefs t : ℚ) * 10 / 100
            + (check_location prefs t : ℚ) * 10 / 100
            + (check_diet prefs t : ℚ) * 5 / 100
            + (check_marital_status prefs t : ℚ) * 10 / 100) / 100 * 100),
        breakdown :=
          [("age", check_age prefs t d), ("height", check_height prefs t),
           ("religion", check_religion prefs t), ("caste", check_caste prefs t),
           ("education", check_education prefs t),
           ("location", check_location prefs t), ("diet", check_diet prefs t),
           ("marital_status", check_marital_status prefs t)],
        is_match := decide
          (60 ≤ ((check_age prefs t d : ℚ) * 15 / 100
            + (check_height prefs t : ℚ) * 10 / 100
            + (check_religion prefs t : ℚ) * 20 / 100
            + (check_caste prefs t : ℚ) * 10 / 100
            + (check_education prefs t : ℚ) * 10 / 100
            + (check_location prefs t : ℚ) * 10 / 100
            + (check_diet prefs t : ℚ) * 5 / 100
            + (check_marital_status prefs t : ℚ) * 10 / 100) / 100 * 100) } := by
  have wa : weightOf "age" = 15 := by decide
  have wh : weightOf "height" = 10 := by decide
  have wr : weightOf "religion" = 20 := by decide
  have wc : weightOf "caste" = 10 := by decide
  have we : weightOf "education" = 10 := by decide
  have wl : weightOf "location" = 10 := by decide
  have wd : weightOf "diet" = 5 := by decide
  have wm : weightOf "marital_status" = 10 := by decide
  have ws : ((WEIGHTS.map (fun kv => kv.2)).sum : Int) = 100 := by decide
  simp only [calculate_compatibility, wa, wh, wr, wc, we, wl, wd, wm, ws]
  norm_num

/-- A preference/candidate pair on which every scored dimension evaluates to
100 (age in range, height in range, religion/education/diet/marital-status
members of the preference lists, caste via `caste_no_bar`, and all three
location components matching case-insensitively). -/
def prefsAll : PartnerPreference :=
  { age_from := 25, age_to := 35, height_from := some 160, height_to := some 180,
    marital_status := ["never_married"], religion := ["hindu"], caste := [],
    caste_no_bar := true, education := ["bachelors"], country := ["india"],
    state := ["maharashtra"], city := ["mumbai"], diet := ["vegetarian"] }

/-- Candidate profile matching every dimension of `prefsAll`. -/
def targetAll : Profile :=
  { date_of_birth := ⟨1995, 5, 10⟩, height_cm := 170,
    marital_status := "never_married", religion := "hindu", caste := "x",
    education := "bachelors", country := "India", state := "Maharashtra",
    city := "Mumbai", diet := "vegetarian" }

/-- Reference date for age computations in concrete runs. -/
def today0 : PyDate := ⟨2025, 6, 1⟩

/-- C1: counterexample.  On a pair where all eight scored dimensions evaluate
to 100, `calculate_compatibility` returns `total_score = 90`, not `100`: the
normalization divides by `sum(WEIGHTS.values()) = 100`, which includes the
`income` weight (10) that is never scored, rather than by the sum of the
weights actually used (90). -/
theorem C1_counterexample :
    check_age prefsAll targetAll today0 = 100 ∧
    check_height prefsAll targetAll = 100 ∧
    check_religion prefsAll targetAll = 100 ∧
    check_caste prefsAll targetAll = 100 ∧
    check_education prefsAll targetAll = 100 ∧
    check_location prefsAll targetAll = 100 ∧
    check_diet prefsAll targetAll = 100 ∧
    check_marital_status prefsAll targetAll = 100 ∧
    (calculate_compatibility (some prefsAll) targetAll today0).total_score ≠ 100 := by
  refine ⟨by decide, by decide, by decide, by decide, by decide, by decide,
    by decide, by decide, ?_⟩
  rw [calculate_compatibility_some]
  have ha : check_age prefsAll targetAll today0 = 100 := by decide
  have hh : check_height prefsAll targetAll = 100 := by decide
  have hr : check_religion prefsAll targetAll = 100 := by decide
  have hc : check_caste prefsAll targetAll = 100 := by decide
  have he : check_education prefsAll targetAll = 100 := by decide
  have hl : check_location prefsAll targetAll = 100 := by decide
  have hd : check_diet prefsAll targetAll = 100 := by decide
  have hm : check_marital_status prefsAll targetAll = 100 := by decide
  simp only [ha, hh, hr, hc, he, hl, hd, hm]
  norm_num [round1, round_eq]

/-- C1 (amended): whenever all eight scored dimensions evaluate to 100, the
total score is 90.0 (the normalization divisor is the full weight-table sum
100, which includes the never-scored `income` weight), and `is_match` is
true. -/
theorem C1_all_dimensions_full (prefs : PartnerPreference) (t : Profile)
    (d : PyDate)
    (ha : check_age prefs t d = 100)
    (hh : check_height prefs t = 100)
    (hr : check_religion prefs t = 100)
    (hc : check_caste prefs t = 100)
    (he : check_education prefs t = 100)
    (hl : check_location prefs t = 100)
    (hd : check_diet prefs t = 100)
    (hm : check_marital_status prefs t = 100) :
    (calculate_compatibility (some prefs) t d).total_score = 90 ∧
    (calculate_compatibility (some prefs) t d).is_match = true := by
  rw [calculate_compatibility_some]
  simp only [ha, hh, hr, hc, he, hl, hd, hm]
  constructor
  · norm_num [round1, round_eq]
  · rw [decide_eq_true_eq]
    norm_num

/-- C1 witness: the amended theorem applied at the concrete all-100 pair. -/
theorem C1_all_dimensions_full_witness :
    (calculate_compatibility (some prefsAll) targetAll today0).total_score = 90 ∧
    (calculate_compatibility (some prefsAll) targetAll today0).is_match = true :=
  C1_all_dimensions_full prefsAll targetAll today0 (by decide) (by decide)
    (by decide) (by decide) (by decide) (by decide) (by decide) (by decide)

/-- A candidate born 1987-01-01: aged 38 at `today0`. -/
def target38 : Profile :=
  { targetAll with date_of_birth := ⟨1987, 1, 1⟩ }

/-- C4: counterexample.  A candidate aged 38 against `age_from = 25,
age_to = 35` has integer distance 3 from the nearest bound, which falls in
the `diff ≤ 5` tier: the age dimension scores 40, not 70. -/
theorem C4_counterexample :
    calculate_age today0 target38.date_of_birth = 38 ∧
    prefsAll.age_from = 25 ∧ prefsAll.age_to = 35 ∧
    check_age prefsAll target38 today0 = 40 ∧
    check_age prefsAll target38 today0 ≠ 70 := by
  refine ⟨by decide, by decide, by decide, by decide, by decide⟩

/-- C4 (amended): for preferences with `age_from = 25`, `age_to = 35` and any
candidate whose computed age is 38 (distance 3 from the upper bound, inside
the `≤ 5` tier but outside the `≤ 2` tier), the age dimension score is 40 —
not 100 and not 70. -/
theorem C4_age38_scores_40 (prefs : PartnerPreference) (t : Profile)
    (d : PyDate) (hfrom : prefs.age_from = 25) (hto : prefs.age_to = 35)
    (hage : calculate_age d t.date_of_birth = 38) :
    check_age prefs t d = 40 := by
  simp only [check_age, hfrom, hto, hage]
  norm_num

/-- C4 witness: the amended theorem applied at the concrete 38-year-old
candidate. -/
theorem C4_age38_scores_40_witness : check_age prefsAll target38 today0 = 40 :=
  C4_age38_scores_40 prefsAll target38 today0 (by decide) (by decide) (by decide)

/-- C6: a requester with no `PartnerPreference` record scores exactly
`{total_score := 50, breakdown := [], is_match := false}` against every
candidate; the absent-preferences branch is total and never raises. -/
theorem C6_missing_preferences_baseline (t : Profile) (d : PyDate) :
    calculate_compatibility none t d =
      { total_score := 50, breakdown := [], is_match := false } := rfl

/-- One entry of the list built by `get_recommended_profiles`. -/
structure ScoredCandidate where
  profile : Profile
  score : ℚ
  breakdown : List (String × Int)
  is_match : Bool
deriving DecidableEq, Repr

/-- Comparison used for the descending sort
(`scored_profiles.sort(key=lambda x: x['score'], reverse=True)`): `x` may
come before `y` when `y`'s score is at most `x`'s. -/
def recLE (x y : ScoredCandidate) : Bool :=
  decide (y.score ≤ x.score)

/-- The scored pool: the candidate pool truncated to 100
(`candidates[:100]`) and scored via `calculate_compatibility`. -/
def scoredPool (preferences : Option PartnerPreference) (today : PyDate)
    (candidates : List Profile) : List ScoredCandidate :=
  (candidates.take 100).map (fun c =>
    let compatibility := calculate_compatibility preferences c today
    { profile := c, score := compatibility.total_score,
      breakdown := compatibility.breakdown,
      is_match := compatibility.is_match })

/-- `MatchingAlgorithm.get_recommended_profiles`, modelled on the already
filtered candidate pool (the exclusion and demographic filtering happens in
the database query; the scoring, sorting and truncation of lines 286-300 is
embedded here).  Python `list.sort` is a stable sort, as is
`List.mergeSort`; a stable sort for a fixed total preorder has a unique
output, so the two agree. -/
def get_recommended_profiles (preferences : Option PartnerPreference)
    (today : PyDate) (candidates : List Profile) (limit : Nat := 20) :
    List ScoredCandidate :=
  ((scoredPool preferences today candidates).mergeSort recLE).take limit

theorem recLE_trans (a b c : ScoredCandidate) :
    recLE a b → recLE b c → recLE a c := by
  simp only [recLE, decide_eq_true_eq]
  exact fun h1 h2 => le_trans h2 h1

theorem recLE_total (a b : ScoredCandidate) : recLE a b || recLE b a := by
  simp only [recLE]
  rcases le_total a.score b.score with h | h <;> simp [h]

/-- Stability of the descending sort, stated through filtering: for every
score value, the elements carrying exactly that score appear in the sorted
list in the same order (indeed, as the same sublist) as in the scored pool. -/
theorem mergeSort_filter_score (l : List ScoredCandidate) (q : ℚ) :
    (l.mergeSort recLE).filter (fun x => decide (x.score = q)) =
      l.filter (fun x => decide (x.score = q)) := by
  set p : ScoredCandidate → Bool := fun x => decide (x.score = q) with hp
  have hpair : (l.filter p).Pairwise (fun a b => recLE a b = true) := by
    apply List.pairwise_of_forall_mem_list
    intro a ha b hb
    have ha2 : p a = true := (List.mem_filter.mp ha).2
    have hb2 : p b = true := (List.mem_filter.mp hb).2
    simp only [hp, decide_eq_true_eq] at ha2 hb2
    simp [recLE, ha2, hb2]
  have hsub : List.Sublist (l.filter p) (l.mergeSort recLE) :=
    List.sublist_mergeSort recLE_trans recLE_total hpair (List.filter_sublist l)
  have hsub2 : List.Sublist ((l.filter p).filter p) ((l.mergeSort recLE).filter p) :=
    hsub.filter p
  rw [List.filter_filter] at hsub2
  have hsame : (l.filter fun a => p a && p a) = l.filter p := by
    simp
  rw [hsame] at hsub2
  have hperm : List.Perm ((l.mergeSort recLE).filter p) (l.filter p) :=
    (List.mergeSort_perm l recLE).filter p
  exact (hsub2.eq_of_length hperm.length_eq.symm).symm

/-- C8: the recommendation operation (i) returns at most `limit` entries
(and the view calls it with the default `limit = 20`), (ii) returns them in
non-increasing order of total score, (iii) breaks ties by preserving the
pool iteration order (for every score value, the equal-score entries of the
sorted pool form the same sublist as in the scored pool), and (iv) depends
only on the first 100 candidates of the pool: the pool is truncated to 100
before any scoring. -/
theorem C8_recommendations (preferences : Option PartnerPreference)
    (today : PyDate) (candidates : List Profile) (limit : Nat) :
    (get_recommended_profiles preferences today candidates limit).length ≤ limit ∧
    (get_recommended_profiles preferences today candidates limit).Pairwise
      (fun x y => y.score ≤ x.score) ∧
    (∀ q : ℚ,
      ((scoredPool preferences today candidates).mergeSort recLE).filter
          (fun x => decide (x.score = q)) =
        (scoredPool preferences today candidates).filter
          (fun x => decide (x.score = q))) ∧
    get_recommended_profiles preferences today candidates limit =
      get_recommended_profiles preferences today (candidates.take 100) limit ∧
    get_recommended_profiles preferences today candidates =
      get_recommended_profiles preferences today candidates 20 := by
  refine ⟨List.length_take_le _ _, ?_, fun q => mergeSort_filter_score _ q, ?_, rfl⟩
  · have hs : ((scoredPool preferences today candidates).mergeSort recLE).Pairwise
        (fun a b => recLE a b = true) :=
      List.sorted_mergeSort recLE_trans recLE_total _
    have hs2 := hs.sublist (List.take_sublist limit _)
    exact hs2.imp (fun h => by simpa [recLE, decide_eq_true_eq] using h)
  · unfold get_recommended_profiles scoredPool
    rw [List.take_take]
    norm_num

/-! ## Interaction state machine (`matching/models.py`, `matching/views.py`,
`profiles/views.py` BlockProfileView, `chat/models.py` ChatRequest).
Profiles are referred to by their string identity (`str(profile.id)`). -/

/-- `Match.status` choices. -/
inductive MatchStatus
  | active
  | archived
  | unmatched
deriving DecidableEq, Repr

/-- `InterestRequest.status` / `ChatRequest.status` choices. -/
inductive RequestStatus
  | pending
  | accepted
  | declined
deriving DecidableEq, Repr

/-- A `Like` row. -/
structure LikeRec where
  from_profile : String
  to_profile : String
  like_type : String
  message : String
deriving DecidableEq, Repr

/-- A `Match` row.  `matched_at` is the `timezone.now()` at creation. -/
structure MatchRec where
  profile1 : String
  profile2 : String
  status : MatchStatus
  unmatched_by : Option String
  matched_at : Nat
  unmatched_at : Option Nat
  chat_unlocked : Bool
  chat_unlocked_at : Option Nat
deriving DecidableEq, Repr

/-- An `InterestRequest` row. -/
structure InterestRec where
  from_profile : String
  to_profile : String
  message : String
  status : RequestStatus
  responded_at : Option Nat
deriving DecidableEq, Repr

/-- A `ChatRequest` row; `match_key` is the `(profile1, profile2)` identity of
the `Match` row it references. -/
structure ChatRequestRec where
  from_profile : String
  to_profile : String
  match_key : String × String
  status : RequestStatus
  responded_at : Option Nat
deriving DecidableEq, Repr

/-- A `Conversation` row (chat app), keyed by its match. -/
structure ConversationRec where
  match_key : String × String
  participant1 : String
  participant2 : String
deriving DecidableEq, Repr

/-- The shared persistent collections the interaction endpoints read and
write. -/
structure MatchingState where
  likes : List LikeRec
  passes : List (String × String)
  blocks : List (String × String)
  matchRows : List MatchRec
  interests : List InterestRec
  chat_requests : List ChatRequestRec
  conversations : List ConversationRec
deriving DecidableEq, Repr

/-- The empty database. -/
def emptyState : MatchingState :=
  { likes := [], passes := [], blocks := [], matchRows := [], interests := [],
    chat_requests := [], conversations := [] }

/-- `Like.objects.filter(from_profile=f, to_profile=t).exists()`. -/
def hasLike (s : MatchingState) (f t : String) : Bool :=
  s.likes.any (fun l => l.from_profile == f && l.to_profile == t)

/-- A fresh `Match` row as `Match.objects.get_or_create` builds it: every
unspecified field takes its model default (`status='active'`,
`chat_unlocked=False`, null timestamps). -/
def newMatch (p1 p2 : String) (now : Nat) : MatchRec :=
  { profile1 := p1, profile2 := p2, status := .active, unmatched_by := none,
    matched_at := now, unmatched_at := none, chat_unlocked := false,
    chat_unlocked_at := none }

/-- Existence of a `Match` row with the given ordered `(profile1, profile2)`
pair (the `unique_together` key). -/
def hasMatchRow (s : MatchingState) (p1 p2 : String) : Bool :=
  s.matchRows.any (fun m => m.profile1 == p1 && m.profile2 == p2)

/-- `Match.objects.get_or_create(profile1=p1, profile2=p2)`: fetch if a row
with that key exists, otherwise insert a fresh row. -/
def matchGetOrCreate (s : MatchingState) (p1 p2 : String) (now : Nat) :
    MatchingState :=
  if hasMatchRow s p1 p2 then s
  else { s with matchRows := s.matchRows ++ [newMatch p1 p2 now] }

/-- Lexicographic comparison of character lists by code point, which is
exactly how Python compares `str` values (Lean's own `String` order is not
kernel-reducible, so it is spelled out here). -/
def charListLt : List Char → List Char → Bool
  | [], [] => false
  | [], _ :: _ => true
  | _ :: _, [] => false
  | c :: cs, d :: ds =>
      if c < d then true
      else if d < c then false
      else charListLt cs ds

/-- Python `a < b` on strings. -/
def strLt (a b : String) : Bool :=
  charListLt a.data b.data

/-- Python `min(x, y, key=lambda p: str(p.id))`: the first argument wins
ties. -/
def minProfile (a b : String) : String :=
  if strLt b a then b else a

/-- Python `max(x, y, key=lambda p: str(p.id))`: the first argument wins
ties. -/
def maxProfile (a b : String) : String :=
  if strLt a b then b else a

/-- `Like.save`: persist the row, then check for the mutual like and create
the canonically ordered `Match` if it is present. -/
def likeSave (s : MatchingState) (now : Nat) (f t lt msg : String) :
    MatchingState :=
  let s1 := { s with likes := s.likes ++ [⟨f, t, lt, msg⟩] }
  if hasLike s1 t f then
    matchGetOrCreate s1 (minProfile f t) (maxProfile f t) now
  else s1

/-- Outcome of `SendLikeView.post` (ignoring the profile-not-found and
serializer-error branches, which do not touch the state). -/
inductive LikeOutcome
  | alreadyLiked
  | created (is_match : Bool)
deriving DecidableEq, Repr

/-- `SendLikeView.post`: reject a duplicate like, otherwise create the row
(running `Like.save`) and report whether a `Match` row in either orientation
now exists. -/
def sendLike (s : MatchingState) (now : Nat) (f t : String)
    (lt : String := "like") (msg : String := "") :
    MatchingState × LikeOutcome :=
  if hasLike s f t then (s, .alreadyLiked)
  else
    let s1 := likeSave s now f t lt msg
    let is_match := s1.matchRows.any (fun m =>
      (m.profile1 == f && m.profile2 == t) || (m.profile1 == t && m.profile2 == f))
    (s1, .created is_match)

/-- `Like.objects.get_or_create(from_profile=f, to_profile=t)`: on a miss the
row is created through `Like.save` (so the mutual-match side effect runs);
on a hit nothing happens. -/
def likeGetOrCreate (s : MatchingState) (now : Nat) (f t : String) :
    MatchingState :=
  if hasLike s f t then s else likeSave s now f t "like" ""

/-- `SendPassView.post`: `Pass.objects.get_or_create`; there is no
self-target check. -/
def sendPass (s : MatchingState) (f t : String) : MatchingState :=
  if s.passes.contains (f, t) then s
  else { s with passes := s.passes ++ [(f, t)] }

/-- Outcome of `BlockProfileView.post`. -/
inductive BlockOutcome
  | blocked
  | cannotBlockSelf
deriving DecidableEq, Repr

/-- `BlockProfileView.post`: rejects blocking your own profile, otherwise
`BlockedProfile.objects.get_or_create`. -/
def blockProfile (s : MatchingState) (blocker blocked : String) :
    MatchingState × BlockOutcome :=
  if blocked == blocker then (s, .cannotBlockSelf)
  else if s.blocks.contains (blocker, blocked) then (s, .blocked)
  else ({ s with blocks := s.blocks ++ [(blocker, blocked)] }, .blocked)

/-- `InterestRequest.accept`: mark the request accepted, then create the two
reciprocal likes with `Like.objects.get_or_create` (each through
`Like.save`). -/
def interestAccept (s : MatchingState) (now : Nat) (f t : String) :
    MatchingState :=
  let s1 := { s with interests := s.interests.map (fun r =>
    if r.from_profile == f && r.to_profile == t then
      { r with status := .accepted, responded_at := some now }
    else r) }
  let s2 := likeGetOrCreate s1 now f t
  likeGetOrCreate s2 now t f

/-- `InterestRequest.decline`. -/
def interestDecline (s : MatchingState) (now : Nat) (f t : String) :
    MatchingState :=
  { s with interests := s.interests.map (fun r =>
    if r.from_profile == f && r.to_profile == t then
      { r with status := .declined, responded_at := some now }
    else r) }

/-- `Match.unmatch`: a status transition on the row; nothing is deleted. -/
def matchUnmatch (m : MatchRec) (p : String) (now : Nat) : MatchRec :=
  { m with
    status := .unmatched
    unmatched_by := some p
    unmatched_at := some now }

/-- `UnmatchView.post`: fetch the row by identity and run `Match.unmatch` on
it. -/
def unmatchState (s : MatchingState) (key : String × String) (p : String)
    (now : Nat) : MatchingState :=
  { s with matchRows := s.matchRows.map (fun m =>
    if m.profile1 == key.1 && m.profile2 == key.2 then matchUnmatch m p now
    else m) }

/-- `ChatRequest.accept`: mark the request accepted, set `chat_unlocked` on
its match, and get-or-create the conversation. -/
def chatRequestAccept (s : MatchingState) (r : ChatRequestRec) (now : Nat) :
    MatchingState :=
  let s1 : MatchingState := { s with chat_requests := s.chat_requests.map (fun c =>
    if c == r then { c with status := .accepted, responded_at := some now }
    else c) }
  let s2 : MatchingState := { s1 with matchRows := s1.matchRows.map (fun m =>
    if m.profile1 == r.match_key.1 && m.profile2 == r.match_key.2 then
      { m with chat_unlocked := true, chat_unlocked_at := some now }
    else m) }
  if s2.conversations.any (fun c => c.match_key == r.match_key) then s2
  else { s2 with conversations :=
    s2.conversations ++ [⟨r.match_key, r.match_key.1, r.match_key.2⟩] }

/-- `ChatRequest.decline`. -/
def chatRequestDecline (s : MatchingState) (r : ChatRequestRec) (now : Nat) :
    MatchingState :=
  { s with chat_requests := s.chat_requests.map (fun c =>
    if c == r then { c with status := .declined, responded_at := some now }
    else c) }

/-- `LikesReceivedView.get_queryset`: non-premium callers get the empty
queryset; premium callers get every like directed at their profile. -/
def likesReceived (is_premium : Bool) (profile : String)
    (likes : List LikeRec) : List LikeRec :=
  if !is_premium then []
  else likes.filter (fun l => l.to_profile == profile)

/-- C10: the likes-received listing returns the empty list to every
non-premium caller — its output is then independent of the stored Like
collection — while a premium caller sees exactly the likes directed at
their profile. -/
theorem C10_likes_received_premium_gate (p : String)
    (likes likes2 : List LikeRec) :
    likesReceived false p likes = [] ∧
    likesReceived false p likes = likesReceived false p likes2 ∧
    (∀ l, l ∈ likesReceived true p likes ↔ (l ∈ likes ∧ l.to_profile = p)) := by
  refine ⟨rfl, rfl, fun l => ?_⟩
  simp [likesReceived, List.mem_filter]

theorem hasLike_append (s : MatchingState) (l : LikeRec) (f t : String) :
    hasLike { s with likes := s.likes ++ [l] } f t =
      (hasLike s f t || (l.from_profile == f && l.to_profile == t)) := by
  simp [hasLike, List.any_append]

theorem hasLike_matchGetOrCreate (s : MatchingState) (p1 p2 : String)
    (now : Nat) (f t : String) :
    hasLike (matchGetOrCreate s p1 p2 now) f t = hasLike s f t := by
  unfold matchGetOrCreate
  split <;> simp [hasLike]

theorem hasMatchRow_matchGetOrCreate_self (s : MatchingState) (p1 p2 : String)
    (now : Nat) :
    hasMatchRow (matchGetOrCreate s p1 p2 now) p1 p2 = true := by
  unfold matchGetOrCreate
  split
  · assumption
  · simp [hasMatchRow, List.any_append, newMatch]

theorem minProfile_self (a : String) : minProfile a a = a := by
  simp [minProfile]

theorem maxProfile_self (a : String) : maxProfile a a = a := by
  simp [maxProfile]

/-- C2: counterexample.  A self-like is not rejected: on the empty state,
liking your own profile creates the Like row `(a, a)`, and — because the
mutual-like query then finds that very row — a self-Match `(a, a)` as well;
the view reports a successful creation.  A self-pass likewise creates the
Pass row `(a, a)`. -/
theorem C2_counterexample :
    (sendLike emptyState 0 "a" "a").2 = .created true ∧
    (sendLike emptyState 0 "a" "a").1.likes = [⟨"a", "a", "like", ""⟩] ∧
    (sendLike emptyState 0 "a" "a").1.matchRows = [newMatch "a" "a" 0] ∧
    sendPass emptyState "a" "a" = { emptyState with passes := [("a", "a")] } := by
  decide

/-- C2 (amended): of the three self-targeting actions only blocking is
rejected (with the "You cannot block yourself" error, leaving the state
unchanged).  A first self-like is accepted and creates both the Like row
`(a, a)` and a Match row `(a, a)`; a self-pass is accepted and creates the
Pass row `(a, a)`. -/
theorem C2_self_actions (s : MatchingState) (a : String) (now : Nat)
    (h : hasLike s a a = false) :
    blockProfile s a a = (s, .cannotBlockSelf) ∧
    (sendLike s now a a).2 ≠ .alreadyLiked ∧
    hasLike (sendLike s now a a).1 a a = true ∧
    hasMatchRow (sendLike s now a a).1 a a = true ∧
    (a, a) ∈ (sendPass s a a).passes := by
  have hsave : likeSave s now a a "like" "" =
      matchGetOrCreate { s with likes := s.likes ++ [⟨a, a, "like", ""⟩] } a a now := by
    simp only [likeSave, hasLike_append, h, minProfile_self, maxProfile_self]
    simp
  refine ⟨by simp [blockProfile], ?_, ?_, ?_, ?_⟩
  · simp [sendLike, h]
  · simp only [sendLike, h, Bool.false_eq_true, if_false, hsave,
      hasLike_matchGetOrCreate, hasLike_append]
    simp
  · simp only [sendLike, h, Bool.false_eq_true, if_false, hsave]
    exact hasMatchRow_matchGetOrCreate_self _ a a now
  · unfold sendPass
    split
    · exact List.elem_iff.mp (by assumption)
    · simp

/-- C2 witness: the amended theorem applied on the empty state. -/
theorem C2_self_actions_witness :
    blockProfile emptyState "a" "a" = (emptyState, .cannotBlockSelf) ∧
    hasMatchRow (sendLike emptyState 0 "a" "a").1 "a" "a" = true := by
  have h := C2_self_actions emptyState "a" 0 (by decide)
  exact ⟨h.1, h.2.2.2.1⟩

theorem charListLt_irrefl : ∀ l : List Char, charListLt l l = false
  | [] => rfl
  | c :: cs => by
      simp [charListLt, lt_irrefl c, charListLt_irrefl cs]

theorem charListLt_asymm : ∀ l1 l2 : List Char,
    charListLt l1 l2 = true → charListLt l2 l1 = false
  | [], [] => by simp [charListLt]
  | [], _ :: _ => by simp [charListLt]
  | _ :: _, [] => by simp [charListLt]
  | c :: cs, d :: ds => by
      simp only [charListLt]
      rcases lt_trichotomy c d with h | h | h
      · intro _
        simp [h, asymm h]
      · subst h
        simp [lt_irrefl c]
        exact charListLt_asymm cs ds
      · intro hcontra
        simp [asymm h, h] at hcontra

theorem charListLt_conn : ∀ l1 l2 : List Char,
    charListLt l1 l2 = false → charListLt l2 l1 = false → l1 = l2
  | [], [] => by simp
  | [], _ :: _ => by simp [charListLt]
  | _ :: _, [] => by simp [charListLt]
  | c :: cs, d :: ds => by
      simp only [charListLt]
      rcases lt_trichotomy c d with h | h | h
      · simp [h]
      · subst h
        simp only [lt_irrefl c, if_false]
        intro h1 h2
        rw [charListLt_conn cs ds h1 h2]
      · intro _ hcontra
        simp [asymm h, h] at hcontra

theorem strLt_irrefl (a : String) : strLt a a = false :=
  charListLt_irrefl a.data

theorem strLt_asymm (a b : String) (h : strLt a b = true) : strLt b a = false :=
  charListLt_asymm a.data b.data h

theorem strLt_conn (a b : String) (h1 : strLt a b = false)
    (h2 : strLt b a = false) : a = b := by
  have hd := charListLt_conn a.data b.data h1 h2
  cases a
  cases b
  exact congrArg String.mk hd

/-- The canonical pair is the same whichever direction triggers it. -/
theorem minProfile_comm (a b : String) : minProfile a b = minProfile b a := by
  unfold minProfile
  cases hab : strLt a b <;> cases hba : strLt b a <;> simp [hab, hba]
  · exact strLt_conn a b hab hba
  · have := strLt_asymm a b hab
    rw [this] at hba
    cases hba

theorem maxProfile_comm (a b : String) : maxProfile a b = maxProfile b a := by
  unfold maxProfile
  cases hab : strLt a b <;> cases hba : strLt b a <;> simp [hab, hba]
  · exact strLt_conn a b hab hba
  · have := strLt_asymm a b hab
    rw [this] at hba
    cases hba

/-- For distinct identities the canonical pair is strictly ordered:
`profile1` sorts strictly below `profile2`. -/
theorem strLt_minProfile_maxProfile (a b : String) (hne : a ≠ b) :
    strLt (minProfile a b) (maxProfile a b) = true := by
  unfold minProfile maxProfile
  cases hab : strLt a b <;> cases hba : strLt b a <;> simp [hab, hba]
  · exact (hne (strLt_conn a b hab hba)).elim
  · have := strLt_asymm a b hab
    rw [this] at hba
    cases hba

/-- One driver step: a `recordLike` call in direction `a → b` (when `d`) or
`b → a` (when `!d`). -/
def likeStep (a b : String) (now : Nat) (s : MatchingState) (d : Bool) :
    MatchingState :=
  (if d then sendLike s now a b else sendLike s now b a).1

/-- A sequence of `recordLike` calls between `a` and `b`, in the directions
listed. -/
def runLikes (a b : String) (now : Nat) (s : MatchingState)
    (ops : List Bool) : MatchingState :=
  ops.foldl (likeStep a b now) s

/-- Invariant tying the Match collection to the two like edges of a pair:
the canonical Match row exists exactly when both directed likes do (and no
other Match rows exist). -/
def pairInv (a b : String) (now : Nat) (s : MatchingState) : Prop :=
  s.matchRows =
    (cond (hasLike s a b && hasLike s b a)
      [newMatch (minProfile a b) (maxProfile a b) now]
      [])

theorem pairInv_symm (a b : String) (now : Nat) (s : MatchingState) :
    pairInv a b now s ↔ pairInv b a now s := by
  unfold pairInv
  rw [minProfile_comm, maxProfile_comm, Bool.and_comm]

theorem likeSave_char (s : MatchingState) (now : Nat) (f t lt msg : String)
    (hne : f ≠ t) :
    likeSave s now f t lt msg =
      (if hasLike s t f then
        matchGetOrCreate { s with likes := s.likes ++ [⟨f, t, lt, msg⟩] }
          (minProfile f t) (maxProfile f t) now
      else { s with likes := s.likes ++ [⟨f, t, lt, msg⟩] }) := by
  have hft : (f == t) = false := beq_eq_false_iff_ne.mpr hne
  simp only [likeSave, hasLike_append, hft, Bool.false_and, Bool.or_false]

theorem sendLike_dir (a b : String) (now : Nat) (s : MatchingState)
    (hne : a ≠ b) (hInv : pairInv a b now s) :
    pairInv a b now (sendLike s now a b).1 ∧
    hasLike (sendLike s now a b).1 a b = true ∧
    hasLike (sendLike s now a b).1 b a = hasLike s b a := by
  cases hab : hasLike s a b with
  | true =>
      have hstep : (sendLike s now a b).1 = s := by simp [sendLike, hab]
      rw [hstep]
      exact ⟨hInv, hab, rfl⟩
  | false =>
      have hstep : (sendLike s now a b).1 = likeSave s now a b "like" "" := by
        simp [sendLike, hab]
      rw [hstep, likeSave_char s now a b "like" "" hne]
      have hrows : s.matchRows = [] := by
        rw [hInv, hab]
        simp
      clear hInv
      have haa : (a == a) = true := beq_self_eq_true a
      have hbb : (b == b) = true := beq_self_eq_true b
      have hab2 : (a == b) = false := beq_eq_false_iff_ne.mpr hne
      have happ := hasLike_append s (⟨a, b, "like", ""⟩ : LikeRec)
      cases hba : hasLike s b a with
      | false =>
          simp only [hba, Bool.false_eq_true, if_false]
          have hx1 : hasLike { s with likes := s.likes ++ [⟨a, b, "like", ""⟩] } a b = true := by
            rw [happ a b]
            simp [haa, hbb]
          have hx2 : hasLike { s with likes := s.likes ++ [⟨a, b, "like", ""⟩] } b a = false := by
            rw [happ b a]
            simp [hba, hab2]
          refine ⟨?_, hx1, by rw [hx2]⟩
          unfold pairInv
          rw [hx1, hx2]
          show s.matchRows = _
          rw [hrows]
          rfl
      | true =>
          simp only [hba, if_true]
          have hnorow : hasMatchRow
              { s with likes := s.likes ++ [⟨a, b, "like", ""⟩] }
              (minProfile a b) (maxProfile a b) = false := by
            unfold hasMatchRow
            show s.matchRows.any _ = false
            rw [hrows]
            rfl
          have hgoc : matchGetOrCreate
              { s with likes := s.likes ++ [⟨a, b, "like", ""⟩] }
              (minProfile a b) (maxProfile a b) now =
              { s with
                likes := s.likes ++ [⟨a, b, "like", ""⟩],
                matchRows := s.matchRows ++
                  [newMatch (minProfile a b) (maxProfile a b) now] } := by
            unfold matchGetOrCreate
            rw [hnorow]
            simp
          rw [hgoc]
          have hx1 : hasLike
              { s with
                likes := s.likes ++ [⟨a, b, "like", ""⟩],
                matchRows := s.matchRows ++
                  [newMatch (minProfile a b) (maxProfile a b) now] } a b = true := by
            have h1 := happ a b
            rw [show hasLike
                { s with
                  likes := s.likes ++ [⟨a, b, "like", ""⟩],
                  matchRows := s.matchRows ++
                    [newMatch (minProfile a b) (maxProfile a b) now] } a b =
                hasLike { s with likes := s.likes ++ [⟨a, b, "like", ""⟩] } a b from rfl, h1]
            simp [haa, hbb]
          have hx2 : hasLike
              { s with
                likes := s.likes ++ [⟨a, b, "like", ""⟩],
                matchRows := s.matchRows ++
                  [newMatch (minProfile a b) (maxProfile a b) now] } b a = true := by
            have h1 := happ b a
            rw [show hasLike
                { s with
                  likes := s.likes ++ [⟨a, b, "like", ""⟩],
                  matchRows := s.matchRows ++
                    [newMatch (minProfile a b) (maxProfile a b) now] } b a =
                hasLike { s with likes := s.likes ++ [⟨a, b, "like", ""⟩] } b a from rfl, h1]
            simp [hba]
          refine ⟨?_, hx1, by rw [hx2]⟩
          unfold pairInv
          rw [hx1, hx2]
          show s.matchRows ++ _ = _
          rw [hrows]
          rfl

theorem likeStep_pair (a b : String) (now : Nat) (s : MatchingState)
    (hne : a ≠ b) (hInv : pairInv a b now s) (d : Bool) :
    pairInv a b now (likeStep a b now s d) ∧
    hasLike (likeStep a b now s d) a b = (hasLike s a b || d) ∧
    hasLike (likeStep a b now s d) b a = (hasLike s b a || !d) := by
  cases d with
  | true =>
      have h := sendLike_dir a b now s hne hInv
      have hstep : likeStep a b now s true = (sendLike s now a b).1 := rfl
      rw [hstep]
      exact ⟨h.1, by rw [h.2.1]; simp, by rw [h.2.2]; simp⟩
  | false =>
      have h := sendLike_dir b a now s (fun e => hne e.symm)
        ((pairInv_symm a b now s).mp hInv)
      have hstep : likeStep a b now s false = (sendLike s now b a).1 := rfl
      rw [hstep]
      exact ⟨(pairInv_symm b a now _).mp h.1, by rw [h.2.2]; simp,
        by rw [h.2.1]; simp⟩

theorem runLikes_pair (a b : String) (now : Nat) (hne : a ≠ b) :
    ∀ (ops : List Bool) (s : MatchingState), pairInv a b now s →
      pairInv a b now (runLikes a b now s ops) ∧
      hasLike (runLikes a b now s ops) a b = (hasLike s a b || ops.any id) ∧
      hasLike (runLikes a b now s ops) b a = (hasLike s b a || ops.any not)
  | [], s, hInv => by
      refine ⟨hInv, ?_, ?_⟩ <;> simp [runLikes]
  | d :: rest, s, hInv => by
      have hstep := likeStep_pair a b now s hne hInv d
      have hrest := runLikes_pair a b now hne rest (likeStep a b now s d) hstep.1
      have hrun : runLikes a b now s (d :: rest) =
          runLikes a b now (likeStep a b now s d) rest := rfl
      rw [hrun]
      refine ⟨hrest.1, ?_, ?_⟩
      · rw [hrest.2.1, hstep.2.1]
        cases d <;> cases hasLike s a b <;> simp
      · rw [hrest.2.2, hstep.2.2]
        cases d <;> cases hasLike s b a <;> simp

/-- C3: starting from the empty state, any sequence of `recordLike` calls
between distinct profiles `a` and `b` that contains both directions — in
either order, with either call repeated any number of times — leaves exactly
one Match row, the canonical one: `profile1` is the identity that sorts
lower as a string, `profile2` the other, and the row is the same whichever
direction formed it (`min`/`max` commute). -/
theorem C3_mutual_likes_unique_match (a b : String) (now : Nat)
    (ops : List Bool) (hne : a ≠ b) (hab : true ∈ ops) (hba : false ∈ ops) :
    (runLikes a b now emptyState ops).matchRows =
      [newMatch (minProfile a b) (maxProfile a b) now] ∧
    minProfile a b = minProfile b a ∧
    maxProfile a b = maxProfile b a ∧
    strLt (minProfile a b) (maxProfile a b) = true := by
  have hInv0 : pairInv a b now emptyState := by
    simp [pairInv, hasLike, emptyState]
  have h := runLikes_pair a b now hne ops emptyState hInv0
  have h1 : ops.any id = true := List.any_eq_true.mpr ⟨true, hab, rfl⟩
  have h2 : ops.any not = true := List.any_eq_true.mpr ⟨false, hba, rfl⟩
  have hA : hasLike (runLikes a b now emptyState ops) a b = true := by
    rw [h.2.1, h1]
    simp
  have hB : hasLike (runLikes a b now emptyState ops) b a = true := by
    rw [h.2.2, h2]
    simp
  have hfin := h.1
  unfold pairInv at hfin
  rw [hA, hB] at hfin
  exact ⟨hfin, minProfile_comm a b, maxProfile_comm a b,
    strLt_minProfile_maxProfile a b hne⟩

/-- C3 witness: the theorem applied to the run "a likes b, then b likes a"
on the empty state. -/
theorem C3_mutual_likes_unique_match_witness :
    (runLikes "a" "b" 0 emptyState [true, false]).matchRows =
      [newMatch (minProfile "a" "b") (maxProfile "a" "b") 0] ∧
    strLt (minProfile "a" "b") (maxProfile "a" "b") = true := by
  have h := C3_mutual_likes_unique_match "a" "b" 0 [true, false]
    (by decide) (by decide) (by decide)
  exact ⟨h.1, h.2.2.2⟩

/-- Number of `Match` rows carrying a given `(profile1, profile2)` key. -/
def countMatchRows (s : MatchingState) (p1 p2 : String) : Nat :=
  s.matchRows.countP (fun m => m.profile1 == p1 && m.profile2 == p2)

theorem countMatchRows_matchGetOrCreate_zero (s : MatchingState)
    (p1 p2 : String) (now : Nat) (h : countMatchRows s p1 p2 = 0) :
    countMatchRows (matchGetOrCreate s p1 p2 now) p1 p2 = 1 := by
  have hno : hasMatchRow s p1 p2 = false := by
    unfold hasMatchRow
    unfold countMatchRows at h
    rw [List.any_eq_false]
    intro m hm
    exact (List.countP_eq_zero.mp h) m hm
  unfold matchGetOrCreate
  rw [hno]
  simp only [Bool.false_eq_true, if_false]
  unfold countMatchRows at h ⊢
  show (s.matchRows ++ [newMatch p1 p2 now]).countP _ = 1
  rw [List.countP_append, h]
  simp [newMatch]

theorem countMatchRows_matchGetOrCreate_one (s : MatchingState)
    (p1 p2 : String) (now : Nat) (h : countMatchRows s p1 p2 = 1) :
    countMatchRows (matchGetOrCreate s p1 p2 now) p1 p2 = 1 := by
  have hyes : hasMatchRow s p1 p2 = true := by
    unfold hasMatchRow
    unfold countMatchRows at h
    rw [List.any_eq_true]
    have hpos : 0 < s.matchRows.countP
        (fun m => m.profile1 == p1 && m.profile2 == p2) := by omega
    obtain ⟨m, hm, hpm⟩ := List.countP_pos_iff.mp hpos
    exact ⟨m, hm, hpm⟩
  unfold matchGetOrCreate
  rw [hyes]
  simp only [if_true]
  exact h

theorem likeGetOrCreate_step (u : MatchingState) (now : Nat) (a b : String)
    (hne : a ≠ b)
    (hmut : countMatchRows u (minProfile a b) (maxProfile a b) =
      cond (hasLike u a b && hasLike u b a) 1 0) :
    hasLike (likeGetOrCreate u now a b) a b = true ∧
    hasLike (likeGetOrCreate u now a b) b a = hasLike u b a ∧
    countMatchRows (likeGetOrCreate u now a b) (minProfile a b) (maxProfile a b) =
      cond (hasLike (likeGetOrCreate u now a b) a b &&
            hasLike (likeGetOrCreate u now a b) b a) 1 0 := by
  cases hab : hasLike u a b with
  | true =>
      have hstep : likeGetOrCreate u now a b = u := by
        simp [likeGetOrCreate, hab]
      rw [hstep]
      exact ⟨hab, rfl, by rw [hmut, hab]⟩
  | false =>
      have hstep : likeGetOrCreate u now a b = likeSave u now a b "like" "" := by
        simp [likeGetOrCreate, hab]
      rw [hstep, likeSave_char u now a b "like" "" hne]
      have hcnt0 : countMatchRows u (minProfile a b) (maxProfile a b) = 0 := by
        rw [hmut, hab]
        rfl
      have haa := beq_self_eq_true a
      have hbb := beq_self_eq_true b
      have hab2 : (a == b) = false := beq_eq_false_iff_ne.mpr hne
      have happ := hasLike_append u (⟨a, b, "like", ""⟩ : LikeRec)
      cases hba : hasLike u b a with
      | false =>
          simp only [hba, Bool.false_eq_true, if_false]
          have hx1 : hasLike { u with likes := u.likes ++ [⟨a, b, "like", ""⟩] } a b = true := by
            rw [happ a b]
            simp [haa, hbb]
          have hx2 : hasLike { u with likes := u.likes ++ [⟨a, b, "like", ""⟩] } b a = false := by
            rw [happ b a]
            simp [hba, hab2]
          refine ⟨hx1, by rw [hx2], ?_⟩
          rw [hx1, hx2]
          show countMatchRows u _ _ = _
          rw [hcnt0]
          rfl
      | true =>
          simp only [hba, if_true]
          have hcnt1 : countMatchRows
              { u with likes := u.likes ++ [⟨a, b, "like", ""⟩] }
              (minProfile a b) (maxProfile a b) = 0 := hcnt0
          have hres := countMatchRows_matchGetOrCreate_zero _
            (minProfile a b) (maxProfile a b) now hcnt1
          have hx1 : hasLike (matchGetOrCreate
              { u with likes := u.likes ++ [⟨a, b, "like", ""⟩] }
              (minProfile a b) (maxProfile a b) now) a b = true := by
            rw [hasLike_matchGetOrCreate, happ a b]
            simp [haa, hbb]
          have hx2 : hasLike (matchGetOrCreate
              { u with likes := u.likes ++ [⟨a, b, "like", ""⟩] }
              (minProfile a b) (maxProfile a b) now) b a = true := by
            rw [hasLike_matchGetOrCreate, happ b a]
            simp [hba]
          refine ⟨hx1, by rw [hx2], ?_⟩
          rw [hx1, hx2, hres]
          rfl

theorem reciprocal_likes_form_match (u : MatchingState) (now : Nat)
    (a b : String) (hne : a ≠ b)
    (hmut : countMatchRows u (minProfile a b) (maxProfile a b) =
      cond (hasLike u a b && hasLike u b a) 1 0) :
    hasLike (likeGetOrCreate (likeGetOrCreate u now a b) now b a) a b = true ∧
    hasLike (likeGetOrCreate (likeGetOrCreate u now a b) now b a) b a = true ∧
    countMatchRows (likeGetOrCreate (likeGetOrCreate u now a b) now b a)
      (minProfile a b) (maxProfile a b) = 1 := by
  have h1 := likeGetOrCreate_step u now a b hne hmut
  have hmut2 : countMatchRows (likeGetOrCreate u now a b)
      (minProfile b a) (maxProfile b a) =
      cond (hasLike (likeGetOrCreate u now a b) b a &&
            hasLike (likeGetOrCreate u now a b) a b) 1 0 := by
    rw [← minProfile_comm a b, ← maxProfile_comm a b, Bool.and_comm]
    exact h1.2.2
  have h2 := likeGetOrCreate_step (likeGetOrCreate u now a b) now b a
    (fun e => hne e.symm) hmut2
  refine ⟨?_, h2.1, ?_⟩
  · rw [h2.2.1]
    exact h1.1
  · have h3 := h2.2.2
    rw [← minProfile_comm a b, ← maxProfile_comm a b] at h3
    rw [h3, h2.1, h2.2.1, h1.1]
    rfl

theorem interests_likeGetOrCreate (x : MatchingState) (now : Nat)
    (f t : String) :
    (likeGetOrCreate x now f t).interests = x.interests := by
  simp only [likeGetOrCreate, likeSave, matchGetOrCreate]
  split
  · rfl
  · split
    · split
      · rfl
      · rfl
    · rfl

/-- C7: accepting a pending InterestRequest from `a` to a distinct `b` marks
every `(a, b)` interest row accepted and creates the reciprocal likes through
`Like.objects.get_or_create` — each running `Like.save`, the same
match-formation primitive as a direct like — so that afterwards both
Like(a→b) and Like(b→a) exist and exactly one Match row exists for the
canonical pair.  The `hmut` hypothesis is the mutual-like-closure invariant
of reachable states: a canonical Match row exists iff both likes already
did. -/
theorem C7_interest_accept (s : MatchingState) (now : Nat) (a b : String)
    (r : InterestRec) (hne : a ≠ b) (hr : r ∈ s.interests)
    (hfrom : r.from_profile = a) (hto : r.to_profile = b)
    (hpending : r.status = .pending)
    (hmut : countMatchRows s (minProfile a b) (maxProfile a b) =
      cond (hasLike s a b && hasLike s b a) 1 0) :
    hasLike (interestAccept s now a b) a b = true ∧
    hasLike (interestAccept s now a b) b a = true ∧
    countMatchRows (interestAccept s now a b)
      (minProfile a b) (maxProfile a b) = 1 ∧
    (∀ r2 ∈ (interestAccept s now a b).interests,
      r2.from_profile = a → r2.to_profile = b → r2.status = .accepted) := by
  have heq : interestAccept s now a b =
      likeGetOrCreate (likeGetOrCreate
        { s with interests := s.interests.map (fun r2 =>
          if r2.from_profile == a && r2.to_profile == b then
            { r2 with status := .accepted, responded_at := some now }
          else r2) } now a b) now b a := rfl
  have hmut1 : countMatchRows
      { s with interests := s.interests.map (fun r2 =>
        if r2.from_profile == a && r2.to_profile == b then
          { r2 with status := .accepted, responded_at := some now }
        else r2) } (minProfile a b) (maxProfile a b) =
      cond (hasLike { s with interests := s.interests.map (fun r2 =>
        if r2.from_profile == a && r2.to_profile == b then
          { r2 with status := .accepted, responded_at := some now }
        else r2) } a b &&
        hasLike { s with interests := s.interests.map (fun r2 =>
          if r2.from_profile == a && r2.to_profile == b then
            { r2 with status := .accepted, responded_at := some now }
          else r2) } b a) 1 0 := hmut
  have h := reciprocal_likes_form_match _ now a b hne hmut1
  rw [heq]
  refine ⟨h.1, h.2.1, h.2.2, ?_⟩
  intro r2 hr2 hfa htb
  rw [interests_likeGetOrCreate, interests_likeGetOrCreate] at hr2
  obtain ⟨r0, hr0, hmap⟩ := List.mem_map.mp hr2
  by_cases hc : (r0.from_profile == a && r0.to_profile == b) = true
  · rw [if_pos hc] at hmap
    rw [← hmap]
  · rw [if_neg hc] at hmap
    subst hmap
    exact absurd (by rw [hfa, htb]; simp) hc

/-- A state holding one pending interest request from "a" to "b". -/
def interestState : MatchingState :=
  { emptyState with interests := [⟨"a", "b", "", .pending, none⟩] }

/-- C7 witness: accepting the pending request on the concrete state. -/
theorem C7_interest_accept_witness :
    hasLike (interestAccept interestState 0 "a" "b") "a" "b" = true ∧
    hasLike (interestAccept interestState 0 "a" "b") "b" "a" = true ∧
    countMatchRows (interestAccept interestState 0 "a" "b")
      (minProfile "a" "b") (maxProfile "a" "b") = 1 := by
  have h := C7_interest_accept interestState 0 "a" "b"
    ⟨"a", "b", "", .pending, none⟩ (by decide) (by decide) rfl rfl rfl
    (by decide)
  exact ⟨h.1, h.2.1, h.2.2.1⟩

/-- C9: `unmatch` only rewrites the status triple on the targeted Match row —
status becomes `unmatched`, `unmatched_by` the acting profile,
`unmatched_at` the current time — and nothing else changes: the row keeps
its identity, timestamps and chat flag; no row is deleted; no Like (or any
other) edge is touched; other Match rows survive unchanged. -/
theorem C9_unmatch_frame (s : MatchingState) (m : MatchRec) (p : String)
    (now : Nat) (hm : m ∈ s.matchRows) (hactive : m.status = .active)
    (hpart : p = m.profile1 ∨ p = m.profile2) :
    (matchUnmatch m p now).status = .unmatched ∧
    (matchUnmatch m p now).unmatched_by = some p ∧
    (matchUnmatch m p now).unmatched_at = some now ∧
    (matchUnmatch m p now).profile1 = m.profile1 ∧
    (matchUnmatch m p now).profile2 = m.profile2 ∧
    (matchUnmatch m p now).matched_at = m.matched_at ∧
    (matchUnmatch m p now).chat_unlocked = m.chat_unlocked ∧
    (matchUnmatch m p now).chat_unlocked_at = m.chat_unlocked_at ∧
    (unmatchState s (m.profile1, m.profile2) p now).likes = s.likes ∧
    (unmatchState s (m.profile1, m.profile2) p now).passes = s.passes ∧
    (unmatchState s (m.profile1, m.profile2) p now).blocks = s.blocks ∧
    (unmatchState s (m.profile1, m.profile2) p now).interests = s.interests ∧
    (unmatchState s (m.profile1, m.profile2) p now).chat_requests =
      s.chat_requests ∧
    (unmatchState s (m.profile1, m.profile2) p now).conversations =
      s.conversations ∧
    (unmatchState s (m.profile1, m.profile2) p now).matchRows.length =
      s.matchRows.length ∧
    (∀ m2 ∈ s.matchRows,
      ¬(m2.profile1 = m.profile1 ∧ m2.profile2 = m.profile2) →
      m2 ∈ (unmatchState s (m.profile1, m.profile2) p now).matchRows) := by
  refine ⟨rfl, rfl, rfl, rfl, rfl, rfl, rfl, rfl, rfl, rfl, rfl, rfl, rfl,
    rfl, ?_, ?_⟩
  · simp [unmatchState]
  · intro m2 hm2 hkey
    have hid : (if m2.profile1 == (m.profile1, m.profile2).1 &&
        m2.profile2 == (m.profile1, m.profile2).2 then
        matchUnmatch m2 p now else m2) = m2 := by
      rw [if_neg]
      intro hcc
      rw [Bool.and_eq_true, beq_iff_eq, beq_iff_eq] at hcc
      exact hkey hcc
    exact List.mem_map.mpr ⟨m2, hm2, hid⟩

/-- A state holding the single active match between "a" and "b". -/
def matchState : MatchingState :=
  { emptyState with matchRows := [newMatch "a" "b" 0] }

/-- C9 witness: unmatching the concrete active match. -/
theorem C9_unmatch_frame_witness :
    (matchUnmatch (newMatch "a" "b" 0) "a" 5).status = .unmatched ∧
    (matchUnmatch (newMatch "a" "b" 0) "a" 5).chat_unlocked =
      (newMatch "a" "b" 0).chat_unlocked ∧
    (unmatchState matchState ("a", "b") "a" 5).likes = matchState.likes := by
  have h := C9_unmatch_frame matchState (newMatch "a" "b" 0) "a" 5
    (by decide) rfl (Or.inl rfl)
  exact ⟨h.1, h.2.2.2.2.2.2.1, h.2.2.2.2.2.2.2.2.1⟩

/-- A premium-entitlement environment in which every profile is premium. -/
def premiumAll : String → Bool := fun _ => true

/-- C5: counterexample.  Even when every participant holds premium
entitlement, the Match row created by a mutual like has
`chat_unlocked = false`: no call site consults premium at creation
(`Match.objects.get_or_create` only sets the model defaults); premium only
bypasses the chat gate at read time. -/
theorem C5_counterexample :
    premiumAll "a" = true ∧ premiumAll "b" = true ∧
    (runLikes "a" "b" 0 emptyState [true, false]).matchRows =
      [newMatch "a" "b" 0] ∧
    (newMatch "a" "b" 0).chat_unlocked = false := by
  decide

/-- `chat_unlocked`, once true on a row, survives the operation: the row (by
its key) is still present with the flag still true. -/
def unlockedPreserved (f : MatchingState → MatchingState) : Prop :=
  ∀ s : MatchingState, ∀ m ∈ s.matchRows, m.chat_unlocked = true →
    ∃ m2 ∈ (f s).matchRows, m2.profile1 = m.profile1 ∧
      m2.profile2 = m.profile2 ∧ m2.chat_unlocked = true

theorem unlockedPreserved_of_append (f : MatchingState → MatchingState)
    (h : ∀ s, ∃ L, (f s).matchRows = s.matchRows ++ L) :
    unlockedPreserved f := by
  intro s m hm hu
  obtain ⟨L, hL⟩ := h s
  refine ⟨m, ?_, rfl, rfl, hu⟩
  rw [hL]
  exact List.mem_append_left _ hm

theorem matchRows_append_matchGetOrCreate (p1 p2 : String) (now : Nat)
    (s : MatchingState) :
    ∃ L, (matchGetOrCreate s p1 p2 now).matchRows = s.matchRows ++ L := by
  unfold matchGetOrCreate
  split
  · exact ⟨[], by simp⟩
  · exact ⟨[newMatch p1 p2 now], rfl⟩

theorem matchRows_append_likeSave (now : Nat) (f t lt msg : String)
    (s : MatchingState) :
    ∃ L, (likeSave s now f t lt msg).matchRows = s.matchRows ++ L := by
  simp only [likeSave]
  split
  · exact matchRows_append_matchGetOrCreate _ _ _ _
  · exact ⟨[], by simp⟩

theorem matchRows_append_sendLike (now : Nat) (f t lt msg : String)
    (s : MatchingState) :
    ∃ L, ((sendLike s now f t lt msg).1).matchRows = s.matchRows ++ L := by
  cases h : hasLike s f t with
  | true => exact ⟨[], by simp [sendLike, h]⟩
  | false =>
      have hstep : (sendLike s now f t lt msg).1 = likeSave s now f t lt msg := by
        simp [sendLike, h]
      rw [hstep]
      exact matchRows_append_likeSave _ _ _ _ _ _

theorem matchRows_append_likeGetOrCreate (now : Nat) (f t : String)
    (s : MatchingState) :
    ∃ L, (likeGetOrCreate s now f t).matchRows = s.matchRows ++ L := by
  unfold likeGetOrCreate
  split
  · exact ⟨[], by simp⟩
  · exact matchRows_append_likeSave _ _ _ _ _ _

theorem matchRows_append_interestAccept (now : Nat) (f t : String)
    (s : MatchingState) :
    ∃ L, (interestAccept s now f t).matchRows = s.matchRows ++ L := by
  obtain ⟨L1, h1⟩ := matchRows_append_likeGetOrCreate now f t
    { s with interests := s.interests.map (fun r =>
      if r.from_profile == f && r.to_profile == t then
        { r with status := .accepted, responded_at := some now }
      else r) }
  obtain ⟨L2, h2⟩ := matchRows_append_likeGetOrCreate now t f
    (likeGetOrCreate { s with interests := s.interests.map (fun r =>
      if r.from_profile == f && r.to_profile == t then
        { r with status := .accepted, responded_at := some now }
      else r) } now f t)
  refine ⟨L1 ++ L2, ?_⟩
  show (likeGetOrCreate (likeGetOrCreate _ now f t) now t f).matchRows = _
  rw [h2, h1]
  show (s.matchRows ++ L1) ++ L2 = s.matchRows ++ (L1 ++ L2)
  rw [List.append_assoc]

theorem chatRequestAccept_matchRows (s : MatchingState) (r : ChatRequestRec)
    (now : Nat) :
    (chatRequestAccept s r now).matchRows = s.matchRows.map (fun m =>
      if m.profile1 == r.match_key.1 && m.profile2 == r.match_key.2 then
        { m with chat_unlocked := true, chat_unlocked_at := some now }
      else m) := by
  simp only [chatRequestAccept]
  split <;> rfl

/-- C5 (amended): (i) a Match row is always created with
`chat_unlocked = false` — creation never consults premium entitlement, which
only bypasses the chat gate at read time; (ii) accepting a ChatRequest sets
the flag true on its match; (iii) every operation of the model preserves a
true flag: once unlocked, no operation resets it. -/
theorem C5_chat_unlock (aP bP : String) (now : Nat) (r : ChatRequestRec)
    (key : String × String) (p : String) (f t lt msg : String) :
    (newMatch aP bP now).chat_unlocked = false ∧
    (∀ s : MatchingState, ∀ m ∈ (matchGetOrCreate s aP bP now).matchRows,
      m ∈ s.matchRows ∨ m = newMatch aP bP now) ∧
    (∀ s : MatchingState, ∀ m ∈ (chatRequestAccept s r now).matchRows,
      m.profile1 = r.match_key.1 → m.profile2 = r.match_key.2 →
      m.chat_unlocked = true) ∧
    unlockedPreserved (fun s => (sendLike s now f t lt msg).1) ∧
    unlockedPreserved (fun s => likeGetOrCreate s now f t) ∧
    unlockedPreserved (fun s => sendPass s f t) ∧
    unlockedPreserved (fun s => (blockProfile s f t).1) ∧
    unlockedPreserved (fun s => interestAccept s now f t) ∧
    unlockedPreserved (fun s => interestDecline s now f t) ∧
    unlockedPreserved (fun s => unmatchState s key p now) ∧
    unlockedPreserved (fun s => chatRequestAccept s r now) ∧
    unlockedPreserved (fun s => chatRequestDecline s r now) ∧
    unlockedPreserved (fun s => matchGetOrCreate s aP bP now) := by
  refine ⟨rfl, ?_, ?_, ?_, ?_, ?_, ?_, ?_, ?_, ?_, ?_, ?_, ?_⟩
  · intro s m hm
    unfold matchGetOrCreate at hm
    by_cases hc : hasMatchRow s aP bP = true
    · rw [if_pos hc] at hm
      exact Or.inl hm
    · rw [if_neg hc] at hm
      rcases List.mem_append.mp hm with h | h
      · exact Or.inl h
      · exact Or.inr (List.mem_singleton.mp h)
  · intro s m hm h1 h2
    rw [chatRequestAccept_matchRows] at hm
    obtain ⟨m0, hm0, hmap⟩ := List.mem_map.mp hm
    by_cases hc : (m0.profile1 == r.match_key.1 &&
        m0.profile2 == r.match_key.2) = true
    · rw [if_pos hc] at hmap
      rw [← hmap]
    · rw [if_neg hc] at hmap
      subst hmap
      exact absurd (by rw [h1, h2]; simp) hc
  · exact unlockedPreserved_of_append _ (matchRows_append_sendLike now f t lt msg)
  · exact unlockedPreserved_of_append _ (matchRows_append_likeGetOrCreate now f t)
  · refine unlockedPreserved_of_append _ (fun s => ⟨[], ?_⟩)
    unfold sendPass
    split
    · simp
    · simp
  · refine unlockedPreserved_of_append _ (fun s => ⟨[], ?_⟩)
    unfold blockProfile
    split
    · simp
    · split
      · simp
      · simp
  · exact unlockedPreserved_of_append _ (matchRows_append_interestAccept now f t)
  · refine unlockedPreserved_of_append _ (fun s => ⟨[], by simp [interestDecline]⟩)
  · intro s m hm hu
    refine ⟨if m.profile1 == key.1 && m.profile2 == key.2 then
      matchUnmatch m p now else m, List.mem_map_of_mem _ hm, ?_, ?_, ?_⟩
    · split <;> rfl
    · split <;> rfl
    · split
      · exact hu
      · exact hu
  · intro s m hm hu
    rw [chatRequestAccept_matchRows]
    refine ⟨if m.profile1 == r.match_key.1 && m.profile2 == r.match_key.2 then
      { m with chat_unlocked := true, chat_unlocked_at := some now }
      else m, List.mem_map_of_mem _ hm, ?_, ?_, ?_⟩
    · split <;> rfl
    · split <;> rfl
    · split
      · rfl
      · exact hu
  · refine unlockedPreserved_of_append _ (fun s => ⟨[], by simp [chatRequestDecline]⟩)
  · exact unlockedPreserved_of_append _ (matchRows_append_matchGetOrCreate aP bP now)

/-- A pending chat request between "a" and "b" for the canonical match. -/
def chatReqAB : ChatRequestRec :=
  ⟨"a", "b", ("a", "b"), .pending, none⟩

/-- A state holding one match between "a" and "b" whose chat is unlocked. -/
def unlockedState : MatchingState :=
  { emptyState with
    matchRows := [{ newMatch "a" "b" 0 with chat_unlocked := true }] }

/-- C5 witness: the amended theorem applied at concrete inputs — the fresh
row starts locked, and a pass leaves an unlocked row unlocked. -/
theorem C5_chat_unlock_witness :
    (newMatch "a" "b" 0).chat_unlocked = false ∧
    (∃ m2 ∈ (sendPass unlockedState "a" "b").matchRows,
      m2.profile1 = "a" ∧ m2.profile2 = "b" ∧ m2.chat_unlocked = true) := by
  have h := C5_chat_unlock "a" "b" 0 chatReqAB ("a", "b") "a" "a" "b" "like" ""
  refine ⟨h.1, ?_⟩
  have hp := h.2.2.2.2.2.1 unlockedState
    ({ newMatch "a" "b" 0 with chat_unlocked := true }) (by decide) (by decide)
  obtain ⟨m2, hm2, h1, h2, h3⟩ := hp
  exact ⟨m2, hm2, h1, h2, h3⟩
